import Mathlib

/-!
Verification of src/src/main.py from the OpenShotX repository.

The source is a 17-line PyQt5 application stub: it defines a class
MainWindow (a QMainWindow subclass that sets a fixed title and fixed
geometry), and a function main that constructs a QApplication from
sys.argv, constructs one MainWindow, shows it, runs the event loop, and
exits with the value the loop returned.  A trailing
`if __name__ == "__main__": main()` guard runs main only when the file
is executed as the main program.

The embedding below translates each source line into Lean.  Toolkit
behaviour that the source merely invokes (the base QMainWindow
constructor, what happens when QApplication cannot attach to a display,
the value the event loop returns) is modelled abstractly, following the
specification of that behaviour.
-/

namespace OpenShotX

/-- Observable state of a top-level window: its title, its position
(x, y), its size (width, height), and whether it is visible. -/
structure WindowState where
  title : String
  x : Int
  y : Int
  width : Int
  height : Int
  visible : Bool
deriving Repr, DecidableEq

/-- Modelled from the spec: the window produced by the toolkit base
constructor, invoked by `super().__init__()` on main.py line 6, before
the subclass configures it: default empty title, default geometry, not
yet visible. -/
def QMainWindow.base : WindowState :=
  { title := "", x := 0, y := 0, width := 0, height := 0, visible := false }

/-- `self.setWindowTitle(t)` (main.py line 7): replaces the title of the
window, leaving everything else unchanged. -/
def setWindowTitle (w : WindowState) (t : String) : WindowState :=
  { w with title := t }

/-- `self.setGeometry(x, y, width, height)` (main.py line 8): sets the
position to (x, y) and the size to width by height, leaving the title
and visibility unchanged. -/
def setGeometry (w : WindowState) (x y width height : Int) : WindowState :=
  { w with x := x, y := y, width := width, height := height }

/-- `window.show()` (main.py line 13): makes the window visible, leaving
all other attributes unchanged. -/
def showWindow (w : WindowState) : WindowState :=
  { w with visible := true }

/-- `MainWindow.__init__` (main.py lines 5 to 8): the base constructor,
then `setWindowTitle("OpenShot X - Screen Capture Tool")`, then
`setGeometry(100, 100, 600, 400)`. -/
def MainWindow.construct : WindowState :=
  setGeometry
    (setWindowTitle QMainWindow.base "OpenShot X - Screen Capture Tool")
    100 100 600 400

/-- Modelled from the spec: the GUI runtime environment a run faces.
`initOk` records whether `QApplication(sys.argv)` can attach to a
display session; `eventLoopReturn` is the integer `app.exec_()` returns
when the loop does run; `initFailCode` is the process exit code the
toolkit aborts with when it cannot attach, which the spec states is
always nonzero. -/
structure Runtime where
  initOk : Bool
  eventLoopReturn : Int
  initFailCode : Int
  initFailCode_ne : initFailCode ≠ 0

/-- One step of the linear control flow of `main` (main.py lines 11 to
14): create the application object, create the window object, display
the window, run the event loop, end the process with an exit code. -/
inductive Step where
  | initRuntime
  | createWindow
  | displayWindow
  | runEventLoop
  | terminate (code : Int)
deriving Repr, DecidableEq

/-- The observable outcome of one run of `main`: the argument vector
handed to the QApplication constructor (if that call was reached), the
ordered trace of steps performed, the window objects that exist when
the run settles, and the process exit code. -/
structure RunResult where
  appArgv : Option (List String)
  trace : List Step
  windows : List WindowState
  exitCode : Int
deriving Repr, DecidableEq

/-- `main` (main.py lines 10 to 14), executed against a runtime
environment `rt`.  Line 11 hands `sys.argv` to the QApplication
constructor unexamined.  If the runtime attaches, line 12 constructs the
one MainWindow, line 13 shows it, and line 14 exits with the value
`app.exec_()` returned.  If the runtime cannot attach, the toolkit
aborts the process before line 12 runs, with its nonzero failure code. -/
def main (argv : List String) (rt : Runtime) : RunResult :=
  if rt.initOk then
    let window := MainWindow.construct
    let shown := showWindow window
    { appArgv := some argv
      trace := [Step.initRuntime, Step.createWindow, Step.displayWindow,
                Step.runEventLoop, Step.terminate rt.eventLoopReturn]
      windows := [shown]
      exitCode := rt.eventLoopReturn }
  else
    { appArgv := some argv
      trace := [Step.initRuntime, Step.terminate rt.initFailCode]
      windows := []
      exitCode := rt.initFailCode }

/-- External state outside the GUI runtime: the file system, the
environment variables, and the set of open network ports. -/
structure World where
  files : List (String × String)
  env : List (String × String)
  openPorts : List Nat
deriving Repr, DecidableEq

/-- World effect of `QApplication(sys.argv)` (main.py line 11): the call
touches only the GUI runtime, so the external world is unchanged. -/
def qApplicationWorldEffect (w : World) : World := w

/-- World effect of `MainWindow()` (main.py line 12): pure object
construction, so the external world is unchanged. -/
def constructWindowWorldEffect (w : World) : World := w

/-- World effect of `window.show()` (main.py line 13): display only, so
the external world is unchanged. -/
def showWorldEffect (w : World) : World := w

/-- World effect of `sys.exit(app.exec_())` (main.py line 14): event
dispatch and process exit only, so the external world is unchanged. -/
def eventLoopWorldEffect (w : World) : World := w

/-- `main` with the external world threaded through the four source
lines in order, pairing the final world with the run outcome. -/
def mainInWorld (w0 : World) (argv : List String) (rt : Runtime) :
    World × RunResult :=
  let w1 := qApplicationWorldEffect w0
  let w2 := constructWindowWorldEffect w1
  let w3 := showWorldEffect w2
  let w4 := eventLoopWorldEffect w3
  (w4, main argv rt)

/-- Outcome of loading the module main.py with a given value of the
`__name__` variable: which top-level names it defines, and the run of
`main` it triggered, if any. -/
structure ModuleLoad where
  definesMainWindow : Bool
  definesMain : Bool
  ran : Option RunResult
deriving Repr, DecidableEq

/-- Loading main.py (whole file): the class statement on lines 4 to 8
defines MainWindow, the def statement on lines 10 to 14 defines main,
and the guard on lines 16 to 17 calls `main()` exactly when the
`__name__` variable equals the string `__main__`. -/
def loadModule (nameVar : String) (argv : List String) (rt : Runtime) :
    ModuleLoad :=
  { definesMainWindow := true
    definesMain := true
    ran := if nameVar = "__main__" then some (main argv rt) else none }

/-- A runtime environment that attaches and whose event loop returns
the concrete code 7, used to witness theorems about successful runs. -/
def demoRuntime : Runtime := ⟨true, 7, 1, by decide⟩

/-- A runtime environment that attaches and whose event loop returns 0,
used to witness theorems about normal termination. -/
def zeroRuntime : Runtime := ⟨true, 0, 1, by decide⟩

/-- A runtime environment that cannot attach to a display and aborts
with code 134, used to witness theorems about failed startup. -/
def failRuntime : Runtime := ⟨false, 0, 134, by decide⟩

/-- C1: for every integer N the event loop returns, the process exit
code of the run equals N; in particular it is 0 exactly when the loop
returned 0. -/
theorem main_exit_propagation (argv : List String) (rt : Runtime)
    (h : rt.initOk = true) :
    (main argv rt).exitCode = rt.eventLoopReturn := by
  simp [main, h]

/-- Witness for C1 at a concrete input: a run whose event loop returns
7 exits with code 7, and one whose loop returns 0 exits with 0. -/
theorem main_exit_propagation_witness :
    demoRuntime.initOk = true ∧ zeroRuntime.initOk = true ∧
    (main [] demoRuntime).exitCode = 7 ∧ (main [] zeroRuntime).exitCode = 0 :=
  ⟨rfl, rfl, main_exit_propagation [] demoRuntime rfl,
    main_exit_propagation [] zeroRuntime rfl⟩

/-- C2: immediately after the MainWindow constructor completes, the
title is exactly "OpenShot X - Screen Capture Tool", the position is
(100, 100), and the size is (600, 400). -/
theorem mainWindow_construct_attributes :
    MainWindow.construct.title = "OpenShot X - Screen Capture Tool" ∧
    MainWindow.construct.x = 100 ∧ MainWindow.construct.y = 100 ∧
    MainWindow.construct.width = 600 ∧ MainWindow.construct.height = 400 :=
  ⟨rfl, rfl, rfl, rfl, rfl⟩

/-- C3: after startup completes, exactly one MainWindow exists, its
title is exactly "OpenShot X - Screen Capture Tool", and the run
performs exactly one window-creation step. -/
theorem main_single_window (argv : List String) (rt : Runtime)
    (h : rt.initOk = true) :
    (main argv rt).windows.length = 1 ∧
    (∀ w ∈ (main argv rt).windows,
      w.title = "OpenShot X - Screen Capture Tool") ∧
    ((main argv rt).trace.filter
      (fun s => s = Step.createWindow)).length = 1 := by
  refine ⟨?_, ?_, ?_⟩ <;>
    simp [main, h, showWindow, MainWindow.construct, setGeometry,
      setWindowTitle, QMainWindow.base, List.filter]

/-- Witness for C3 at a concrete input: running with empty argv under
an attaching runtime yields one window with the fixed title. -/
theorem main_single_window_witness :
    demoRuntime.initOk = true ∧
    ((main [] demoRuntime).windows.length = 1 ∧
      (∀ w ∈ (main [] demoRuntime).windows,
        w.title = "OpenShot X - Screen Capture Tool") ∧
      ((main [] demoRuntime).trace.filter
        (fun s => s = Step.createWindow)).length = 1) :=
  ⟨rfl, main_single_window [] demoRuntime rfl⟩

/-- C4: if runtime attachment fails, no MainWindow is created, the
event loop is never entered, and the process exits nonzero. -/
theorem main_fatal_startup (argv : List String) (rt : Runtime)
    (h : rt.initOk = false) :
    (main argv rt).windows = [] ∧
    Step.createWindow ∉ (main argv rt).trace ∧
    Step.runEventLoop ∉ (main argv rt).trace ∧
    (main argv rt).exitCode ≠ 0 := by
  refine ⟨?_, ?_, ?_, ?_⟩ <;>
    simp [main, h, rt.initFailCode_ne]

/-- Witness for C4 at a concrete input: under a runtime that cannot
attach, no window exists, no loop step occurs, and the exit code is
nonzero. -/
theorem main_fatal_startup_witness :
    failRuntime.initOk = false ∧
    ((main [] failRuntime).windows = [] ∧
      Step.createWindow ∉ (main [] failRuntime).trace ∧
      Step.runEventLoop ∉ (main [] failRuntime).trace ∧
      (main [] failRuntime).exitCode ≠ 0) :=
  ⟨rfl, main_fatal_startup [] failRuntime rfl⟩

/-- C5: a successful run performs exactly the steps initialize runtime,
construct window, show window, run event loop, terminate, in that
order, each exactly once. -/
theorem main_linear_control_flow (argv : List String) (rt : Runtime)
    (h : rt.initOk = true) :
    (main argv rt).trace =
      [Step.initRuntime, Step.createWindow, Step.displayWindow,
       Step.runEventLoop, Step.terminate rt.eventLoopReturn] := by
  simp [main, h]

/-- Witness for C5 at a concrete input: the trace of a successful run
with empty argv is the five-step forward sequence. -/
theorem main_linear_control_flow_witness :
    demoRuntime.initOk = true ∧
    (main [] demoRuntime).trace =
      [Step.initRuntime, Step.createWindow, Step.displayWindow,
       Step.runEventLoop, Step.terminate 7] :=
  ⟨rfl, main_linear_control_flow [] demoRuntime rfl⟩

/-- C6: for every argv, the run hands exactly argv to the QApplication
constructor, and no other part of the outcome (trace, windows, exit
code) depends on argv, i.e. the program parses no flags. -/
theorem main_argv_passthrough (argv : List String) (rt : Runtime) :
    (main argv rt).appArgv = some argv ∧
    ∀ argv2 : List String,
      (main argv rt).trace = (main argv2 rt).trace ∧
      (main argv rt).windows = (main argv2 rt).windows ∧
      (main argv rt).exitCode = (main argv2 rt).exitCode := by
  cases hr : rt.initOk <;> simp [main, hr]

/-- C7: showing a window is idempotent: a second show call is defined
(no error), changes nothing further, and the shown window is visible. -/
theorem showWindow_idempotent (w : WindowState) :
    showWindow (showWindow w) = showWindow w ∧
    (showWindow w).visible = true := by
  simp [showWindow]

/-- C8: a run reads and writes no file, opens no network port, reads
and writes no environment variable: threading the external world
through every source line returns it unchanged, and the run outcome is
independent of that world. -/
theorem main_no_external_effects (w : World) (argv : List String)
    (rt : Runtime) :
    mainInWorld w argv rt = (w, main argv rt) := rfl

/-- C9: loading the module with `__name__` not equal to the string
`__main__` defines the MainWindow class and the main function but
triggers no run: no QApplication, no window, no event loop. -/
theorem loadModule_import_is_pure (nameVar : String) (argv : List String)
    (rt : Runtime) (h : nameVar ≠ "__main__") :
    (loadModule nameVar argv rt).definesMainWindow = true ∧
    (loadModule nameVar argv rt).definesMain = true ∧
    (loadModule nameVar argv rt).ran = none := by
  simp [loadModule, h]

/-- Witness for C9 at a concrete input: importing the file under the
module name src.main runs nothing. -/
theorem loadModule_import_is_pure_witness :
    ("src.main" : String) ≠ "__main__" ∧
    ((loadModule "src.main" [] demoRuntime).definesMainWindow = true ∧
      (loadModule "src.main" [] demoRuntime).definesMain = true ∧
      (loadModule "src.main" [] demoRuntime).ran = none) :=
  ⟨by decide, loadModule_import_is_pure "src.main" [] demoRuntime (by decide)⟩

/-- C10: the constructed window is independent of the argument vector:
two runs with any two argv values produce equal window lists, and every
window in them has the fixed title, position (100, 100), and size
(600, 400). -/
theorem main_window_independent_of_argv (argv1 argv2 : List String)
    (rt : Runtime) (h : rt.initOk = true) :
    (main argv1 rt).windows = (main argv2 rt).windows ∧
    ∀ w ∈ (main argv1 rt).windows,
      w.title = "OpenShot X - Screen Capture Tool" ∧
      w.x = 100 ∧ w.y = 100 ∧ w.width = 600 ∧ w.height = 400 := by
  refine ⟨by simp [main, h], ?_⟩
  simp [main, h, showWindow, MainWindow.construct, setGeometry,
    setWindowTitle, QMainWindow.base]

/-- Witness for C10 at a concrete input: runs with argv values
differing in content yield the same window with the fixed attributes. -/
theorem main_window_independent_of_argv_witness :
    demoRuntime.initOk = true ∧
    ((main ["app", "--verbose"] demoRuntime).windows =
        (main ["app"] demoRuntime).windows ∧
      ∀ w ∈ (main ["app", "--verbose"] demoRuntime).windows,
        w.title = "OpenShot X - Screen Capture Tool" ∧
        w.x = 100 ∧ w.y = 100 ∧ w.width = 600 ∧ w.height = 400) :=
  ⟨rfl, main_window_independent_of_argv ["app", "--verbose"] ["app"]
    demoRuntime rfl⟩

end OpenShotX
